import Mathlib

/-!
Verification of the facility query/serialization/filtering layer of the
`inf5190-projetsession` repository.  The operations are shallowly embedded
from `app/api/api.py`; the database is a record of the four entity
collections, and each SQLAlchemy query step is translated to the
corresponding list operation (`filter`, join-with-existence, stable
`mergeSort` for `order_by`).
-/

namespace ProjetSession

/-- Modelled from the spec: the Borough entity (`model/arrondissement.py` is
not under the sources).  A borough has an identifier, a name and a
last-update timestamp string of shape `YYYY-MM-DD...`. -/
structure Arrondissement where
  id : Nat
  nom : String
  date_maj : String
deriving DecidableEq

/-- Modelled from the spec: the Slide entity (`model/glissade.py` is not
under the sources).  It carries an identifier, a name and the foreign key of
its owning borough; its remaining kind-specific attributes play no role in
the claims. -/
structure Glissade where
  id : Nat
  nom : String
  arrondissement_id : Nat
deriving DecidableEq

/-- Modelled from the spec: the AquaticFacility entity
(`model/installation_aquatique.py` is not under the sources). -/
structure InstallationAquatique where
  id : Nat
  nom : String
  arrondissement_id : Nat
deriving DecidableEq

/-- Modelled from the spec: the IceRink entity (`model/patinoire.py` is not
under the sources).  Besides the borough foreign key it carries its own
free-text date/time field, used directly for temporal filtering. -/
structure Patinoire where
  id : Nat
  nom : String
  arrondissement_id : Nat
  date_heure : String
deriving DecidableEq

/-- Modelled from the spec: the Subscriber entity (`model/subscriber.py` is
not under the sources): full name, email and the followed borough ids. -/
structure Subscriber where
  full_name : String
  email : String
  boroughs_to_follow : List Int
deriving DecidableEq

/-- The storage collaborator: the four read-only entity collections, in
storage (insertion) order. -/
structure Database where
  arrondissements : List Arrondissement
  installations_aquatiques : List InstallationAquatique
  patinoires : List Patinoire
  glissades : List Glissade
deriving DecidableEq

/-- `facility.arrondissement.has(nom=n)`: some borough row has this
facility's foreign key as its id and `n` as its name. -/
def arrondissementHasNom (db : Database) (arrId : Nat) (n : String) : Bool :=
  db.arrondissements.any (fun a => a.id == arrId && a.nom == n)

/-- Inner join of a facility to its owning borough followed by the filter
`Arrondissement.date_maj LIKE year || "%"`: some borough row has the
facility's foreign key as its id and a last-update timestamp starting with
`year`. -/
def arrondissementDateMajLike (db : Database) (arrId : Nat) (year : String) : Bool :=
  db.arrondissements.any
    (fun a => a.id == arrId && List.isPrefixOf year.data a.date_maj.data)

/-- `Patinoire.date_heure.contains(year)`: the rink's own date/time field
has `year` somewhere as a substring (SQL `LIKE` with `%` on both sides). -/
def dateHeureContains (r : Patinoire) (year : String) : Bool :=
  decide (year.data <:+: r.date_heure.data)

/-- Name comparison used by every `order_by(<entity>.nom.asc())`. -/
def nomLe {α : Type} (nom : α → String) (x y : α) : Bool :=
  decide (nom x ≤ nom y)

/-- `_get_all_facilities`: fetch the three facility collections unfiltered,
in storage order.  Returns (aquatic facilities, ice rinks, slides), as the
source tuple does. -/
def get_all_facilities (db : Database) :
    List InstallationAquatique × List Patinoire × List Glissade :=
  (db.installations_aquatiques, db.patinoires, db.glissades)

/-- The three-keyed JSON response envelope; the fields appear in the fixed
key order of the source dictionary. -/
structure Envelope where
  glissades : List Glissade
  installations_aquatiques : List InstallationAquatique
  patinoires : List Patinoire
deriving DecidableEq

/-- The `facilities` route (`GET /installations`): prefetch everything, then,
when the `arrondissement` query parameter is present, overwrite each
collection with the query filtered through the borough relation. -/
def facilities (db : Database) (arr_filter : Option String) : Envelope :=
  let all := get_all_facilities db
  let aquatic_facilities := all.1
  let ice_rinks := all.2.1
  let slides := all.2.2
  match arr_filter with
  | none =>
    { glissades := slides
      installations_aquatiques := aquatic_facilities
      patinoires := ice_rinks }
  | some f =>
    let slides :=
      db.glissades.filter (fun g => arrondissementHasNom db g.arrondissement_id f)
    let aquatic_facilities :=
      db.installations_aquatiques.filter
        (fun q => arrondissementHasNom db q.arrondissement_id f)
    let ice_rinks :=
      db.patinoires.filter (fun r => arrondissementHasNom db r.arrondissement_id f)
    { glissades := slides
      installations_aquatiques := aquatic_facilities
      patinoires := ice_rinks }

/-- The variant of the filtered branch of `facilities` that never performs
the initial unfiltered fetch: it serializes the three filtered queries
directly. -/
def facilitiesFilteredOnly (db : Database) (f : String) : Envelope :=
  { glissades :=
      db.glissades.filter (fun g => arrondissementHasNom db g.arrondissement_id f)
    installations_aquatiques :=
      db.installations_aquatiques.filter
        (fun q => arrondissementHasNom db q.arrondissement_id f)
    patinoires :=
      db.patinoires.filter (fun r => arrondissementHasNom db r.arrondissement_id f) }

/-- The year-generic temporal-filter contract `listFacilitiesUpdatedInYear`:
the body of `_get_facilities_updated_2021` with the year as a parameter.
Slides and aquatic facilities join to the owning borough and keep rows whose
borough timestamp starts with `year`; ice rinks keep rows whose own
date/time field has `year` as a substring; each collection is ordered by
facility name ascending (`order_by(nom.asc())`, embedded as the stable
`mergeSort`).  Returns (aquatic facilities, ice rinks, slides), as the
source tuple does. -/
def listFacilitiesUpdatedInYear (db : Database) (year : String) :
    List InstallationAquatique × List Patinoire × List Glissade :=
  let slides :=
    (db.glissades.filter
        (fun g => arrondissementDateMajLike db g.arrondissement_id year)).mergeSort
      (nomLe Glissade.nom)
  let aquatic_facilities :=
    (db.installations_aquatiques.filter
        (fun q => arrondissementDateMajLike db q.arrondissement_id year)).mergeSort
      (nomLe InstallationAquatique.nom)
  let skating_rinks :=
    (db.patinoires.filter (fun r => dateHeureContains r year)).mergeSort
      (nomLe Patinoire.nom)
  (aquatic_facilities, skating_rinks, slides)

/-- `_get_facilities_updated_2021`: the source operation.  It takes no year
argument; the literal `year = "2021"` is assigned inside its own body. -/
def get_facilities_updated_2021 (db : Database) :
    List InstallationAquatique × List Patinoire × List Glissade :=
  let year := "2021"
  let slides :=
    (db.glissades.filter
        (fun g => arrondissementDateMajLike db g.arrondissement_id year)).mergeSort
      (nomLe Glissade.nom)
  let aquatic_facilities :=
    (db.installations_aquatiques.filter
        (fun q => arrondissementDateMajLike db q.arrondissement_id year)).mergeSort
      (nomLe InstallationAquatique.nom)
  let skating_rinks :=
    (db.patinoires.filter (fun r => dateHeureContains r year)).mergeSort
      (nomLe Patinoire.nom)
  (aquatic_facilities, skating_rinks, slides)

/-- `facility_names` (`GET /installations-noms`): append the names of the
aquatic facilities, then of the ice rinks, then of the slides, and sort the
flat list alphabetically (`sorted`, embedded as the stable `mergeSort`). -/
def facility_names (db : Database) : List String :=
  let all := get_all_facilities db
  let names :=
    all.1.map InstallationAquatique.nom ++ all.2.1.map Patinoire.nom ++
      all.2.2.map Glissade.nom
  names.mergeSort (fun x y => decide (x ≤ y))

/-- The error a Python `UnboundLocalError` raise is embedded as. -/
def unboundLocalError : String :=
  "UnboundLocalError: local variable referenced before assignment"

/-- `facility_name_search` (`GET /installations-recherche-nom`): the local
collections are assigned only inside the `if name_filter is not None` branch,
yet they are serialized unconditionally afterwards; when the `nom` query
parameter is absent the function therefore raises `UnboundLocalError` at
runtime, embedded as the `Except.error` case. -/
def facility_name_search (db : Database) (name_filter : Option String) :
    Except String Envelope :=
  match name_filter with
  | some n =>
    Except.ok
      { glissades := db.glissades.filter (fun g => g.nom == n)
        installations_aquatiques :=
          db.installations_aquatiques.filter (fun q => q.nom == n)
        patinoires := db.patinoires.filter (fun r => r.nom == n) }
  | none => Except.error unboundLocalError

/-- Untyped structured input documents, as submitted to the subscription
endpoint. -/
inductive Json where
  | null : Json
  | bool (b : Bool) : Json
  | num (n : Int) : Json
  | str (s : String) : Json
  | arr (xs : List Json) : Json
  | obj (fields : List (String × Json)) : Json

/-- Object field lookup (`request_data[key]` presence). -/
def Json.get? (j : Json) (key : String) : Option Json :=
  match j with
  | .obj fields => (fields.find? (fun kv => kv.1 == key)).map (fun kv => kv.2)
  | _ => none

/-- View a document as a string. -/
def Json.asStr? : Json → Option String
  | .str s => some s
  | _ => none

/-- View a document as an array of integer identifiers. -/
def Json.asNumList? : Json → Option (List Int)
  | .arr xs =>
    xs.foldr
      (fun x acc =>
        match x, acc with
        | .num n, some l => some (n :: l)
        | _, _ => none)
      (some [])
  | _ => none

/-- Modelled from the spec: the subscription schema
(`schemas/subscribe.json` is not under the sources).  Per the spec a
document is valid iff it carries the required fields `full_name` (a
non-empty string), `email` (a string) and `boroughs_to_follow` (a non-empty
array of borough identifiers). -/
def validate_subscription (doc : Json) : Bool :=
  match (doc.get? "full_name").bind Json.asStr?,
      (doc.get? "email").bind Json.asStr?,
      (doc.get? "boroughs_to_follow").bind Json.asNumList? with
  | some fn, some _, some bs => !(fn == "") && !bs.isEmpty
  | _, _, _ => false

/-- A response body of the subscription endpoint: either the serialized
subscriber or one of the two fixed error documents. -/
inductive ResponseBody where
  | subscriberDoc (s : Subscriber) : ResponseBody
  | errorDoc (msg : String) : ResponseBody
deriving DecidableEq

/-- The fixed 400 message of the source (line 137 of `api.py`). -/
def invalidDataMsg : String := "Les données fournies ne sont pas valides."

/-- The fixed 500 message of the source (lines 131-132 of `api.py`). -/
def storageErrorMsg : String :=
  "Une erreur est survenue lors de l\x27ajout dans la base de données."

/-- The observable outcome of one `subscribe` call: the HTTP response, the
storage contents afterwards, and how many insert+commit attempts were made
against the storage layer. -/
structure SubscribeResult where
  body : ResponseBody
  status : Nat
  storage : List Subscriber
  insertAttempts : Nat
deriving DecidableEq

/-- The `subscribe` route (`POST /abonnement`).  `storage` is the subscriber
table before the call; `commitFails` says whether the storage layer fails
the single insert+commit with a storage-layer error (`exc.SQLAlchemyError`).
On validation failure the request is answered 400 with the fixed message and
storage is never touched; on storage failure the request is answered 500
with the fixed message, storage keeps its prior state and the write is not
retried; otherwise the new subscriber is appended and answered 201. -/
def subscribe (storage : List Subscriber) (commitFails : Bool)
    (request_data : Json) : SubscribeResult :=
  if validate_subscription request_data then
    let subscriber : Subscriber :=
      { full_name := (((request_data.get? "full_name").bind Json.asStr?).getD "")
        email := (((request_data.get? "email").bind Json.asStr?).getD "")
        boroughs_to_follow :=
          (((request_data.get? "boroughs_to_follow").bind Json.asNumList?).getD []) }
    if commitFails then
      { body := ResponseBody.errorDoc storageErrorMsg
        status := 500
        storage := storage
        insertAttempts := 1 }
    else
      { body := ResponseBody.subscriberDoc subscriber
        status := 201
        storage := storage ++ [subscriber]
        insertAttempts := 1 }
  else
    { body := ResponseBody.errorDoc invalidDataMsg
      status := 400
      storage := storage
      insertAttempts := 0 }

/-- A flat field-mapping document (§4.3 Contract A): the ordered list of an
entity's field names and their serialized scalar values. -/
abbrev Doc : Type := List (String × String)

/-- XML character-data escaping, as performed by the serialization library
on every text payload. -/
def escapeChar (c : Char) : String :=
  if c = '&' then "&amp;"
  else if c = '<' then "&lt;"
  else if c = '>' then "&gt;"
  else if c = '"' then "&quot;"
  else String.singleton c

/-- Escape a whole text payload. -/
def escapeXml (s : String) : String :=
  s.data.foldr (fun c acc => escapeChar c ++ acc) ""

/-- Serialize one document field, `<key>escaped value</key>`. -/
def fieldToXml (kv : String × String) : String :=
  "<" ++ kv.1 ++ ">" ++ escapeXml kv.2 ++ "</" ++ kv.1 ++ ">"

/-- Serialize the fields of one document, in document order. -/
def docFieldsToXml (d : Doc) : String :=
  match d with
  | [] => ""
  | kv :: rest => fieldToXml kv ++ docFieldsToXml rest

/-- Model of `dicttoxml(docs, root=False, attr_type=False).decode("utf-8")`:
each document of the list becomes one `<item>` element whose children are
the document's fields; no root is added and no type attributes are
emitted. -/
def dicttoxml (docs : List Doc) : String :=
  match docs with
  | [] => ""
  | d :: rest => "<item>" ++ docFieldsToXml d ++ "</item>" ++ dicttoxml rest

/-- The XML declaration written literally by the source (line 222). -/
def xmlDecl : String := "<?xml version=\"1.0\" encoding=\"utf-8\"?>"

/-- `''.join(xml_data)` of `facilities_updated_2021_xml`: the declaration and
the three container tags are string literals of the source, the group
contents come from `dicttoxml`. -/
def joined_xml_data (slides aquatic_facilities ice_rinks : List Doc) : String :=
  String.join
    [xmlDecl ++ "<installations><glissades>",
      dicttoxml slides,
      "</glissades><installations_aquatiques>",
      dicttoxml aquatic_facilities,
      "</installations_aquatiques><patinoires>",
      dicttoxml ice_rinks,
      "</patinoires></installations>"]

/-- XML document trees: element nodes with a tag, attributes and children,
and text nodes. -/
inductive Xml where
  | text (s : String) : Xml
  | elem (tag : String) (attrs : List (String × String)) (children : List Xml) : Xml

/-- Render an attribute list. -/
def renderAttrs (attrs : List (String × String)) : String :=
  match attrs with
  | [] => ""
  | kv :: rest => " " ++ kv.1 ++ "=\"" ++ escapeXml kv.2 ++ "\"" ++ renderAttrs rest

mutual

/-- The standard serialization of an XML tree (no added whitespace). -/
def render : Xml → String
  | .text s => escapeXml s
  | .elem tag attrs children =>
    "<" ++ tag ++ renderAttrs attrs ++ ">" ++ renderList children ++ "</" ++ tag ++ ">"

/-- Serialization of a forest, children in order. -/
def renderList : List Xml → String
  | [] => ""
  | x :: xs => render x ++ renderList xs

end

/-- The `<item>` element a single document becomes: one sub-element per
field, in document order, holding the field's value as text; no
attributes. -/
def docToXmlItem (d : Doc) : Xml :=
  Xml.elem "item" [] (d.map (fun kv => Xml.elem kv.1 [] [Xml.text kv.2]))

/-- The structured document the endpoint's output represents: root
`installations`, the three containers `glissades`,
`installations_aquatiques`, `patinoires` in that fixed order, one `<item>`
child per input document. -/
def toXml (slides aquatic_facilities ice_rinks : List Doc) : Xml :=
  Xml.elem "installations" []
    [Xml.elem "glissades" [] (slides.map docToXmlItem),
      Xml.elem "installations_aquatiques" []
        (aquatic_facilities.map docToXmlItem),
      Xml.elem "patinoires" [] (ice_rinks.map docToXmlItem)]

mutual

/-- No element of the tree carries any attribute. -/
def noAttrs : Xml → Bool
  | .text _ => true
  | .elem _ attrs children => attrs.isEmpty && noAttrsList children

/-- `noAttrs` over a forest. -/
def noAttrsList : List Xml → Bool
  | [] => true
  | x :: xs => noAttrs x && noAttrsList xs

end

/-- A character allowed after the first position of an XML name. -/
def validNameChar (c : Char) : Bool :=
  c.isAlphanum || c = '_' || c = '-' || c = '.'

/-- A usable XML element name: non-empty, starting with a letter or
underscore, continuing with letters, digits, `_`, `-` or `.`. -/
def validXmlName (s : String) : Bool :=
  match s.data with
  | [] => false
  | c :: cs => (c.isAlpha || c = '_') && cs.all validNameChar

mutual

/-- Well-formedness of a tree: every element tag and attribute name is a
usable XML name, so the rendered string is a parseable XML document (text
payloads are escaped by `render`). -/
def wellFormed : Xml → Bool
  | .text _ => true
  | .elem tag attrs children =>
    validXmlName tag && attrs.all (fun kv => validXmlName kv.1) &&
      wellFormedList children

/-- `wellFormed` over a forest. -/
def wellFormedList : List Xml → Bool
  | [] => true
  | x :: xs => wellFormed x && wellFormedList xs

end

/-- Fixture: a borough updated in 2021. -/
def boroughVM : Arrondissement :=
  { id := 1, nom := "Ville-Marie", date_maj := "2021-08-01T10:00:00" }

/-- Fixture: a borough updated in 2020. -/
def boroughPlateau : Arrondissement :=
  { id := 1, nom := "Le Plateau", date_maj := "2020-05-05T10:00:00" }

/-- Fixture: a slide owned by borough 1. -/
def slideFixture : Glissade := { id := 1, nom := "Glissade du parc", arrondissement_id := 1 }

/-- Fixture: an aquatic facility owned by borough 1. -/
def aquaticFixture : InstallationAquatique :=
  { id := 1, nom := "Piscine Quintal", arrondissement_id := 1 }

/-- Fixture: an ice rink owned by borough 1, dated 2021. -/
def rinkFixture : Patinoire :=
  { id := 1, nom := "Patinoire Bleury", arrondissement_id := 1,
    date_heure := "2021-01-09 08:00:00" }

/-- Fixture database: one borough updated in 2021, one facility of each
kind. -/
def dbFixture : Database :=
  { arrondissements := [boroughVM]
    installations_aquatiques := [aquaticFixture]
    patinoires := [rinkFixture]
    glissades := [slideFixture] }

/-- Fixture database: one borough updated in 2020 owning one slide; nothing
was updated in 2021. -/
def dbFixture2020 : Database :=
  { arrondissements := [boroughPlateau]
    installations_aquatiques := []
    patinoires := []
    glissades := [slideFixture] }

/-- Fixture: a subscription document rejected by the schema (empty
`full_name`). -/
def invalidSubscribeDoc : Json :=
  Json.obj
    [("full_name", Json.str ""),
      ("email", Json.str "a@example.com"),
      ("boroughs_to_follow", Json.arr [Json.num 1])]

/-- Fixture: a subscription document accepted by the schema. -/
def validSubscribeDoc : Json :=
  Json.obj
    [("full_name", Json.str "Ada Lovelace"),
      ("email", Json.str "ada@example.com"),
      ("boroughs_to_follow", Json.arr [Json.num 1, Json.num 3])]

/-- Fixture: the subscriber `validSubscribeDoc` describes. -/
def validSubscriber : Subscriber :=
  { full_name := "Ada Lovelace", email := "ada@example.com",
    boroughs_to_follow := [1, 3] }

/-- Fixture: a serialized slide document. -/
def slideDocFixture : Doc :=
  [("id", "1"), ("nom", "Glissade du parc"), ("ouvert", "True")]

/-- Fixture: a serialized aquatic-facility document. -/
def aquaticDocFixture : Doc := [("id", "1"), ("nom", "Piscine Quintal")]

/-- Fixture: a serialized ice-rink document. -/
def rinkDocFixture : Doc :=
  [("id", "1"), ("nom", "Patinoire Bleury"), ("date_heure", "2021-01-09 08:00:00")]

end ProjetSession

namespace ProjetSession

theorem nomLe_trans {α : Type} (nom : α → String) (a b c : α) :
    nomLe nom a b → nomLe nom b c → nomLe nom a c := by
  simp only [nomLe, decide_eq_true_eq]
  exact le_trans

theorem nomLe_total {α : Type} (nom : α → String) (a b : α) :
    nomLe nom a b || nomLe nom b a := by
  simp only [nomLe, Bool.or_eq_true, decide_eq_true_eq]
  exact le_total (nom a) (nom b)

/-- `order_by(nom.asc())` embedded as `mergeSort` yields a list sorted by
name. -/
theorem mergeSort_nom_sorted {α : Type} (nom : α → String) (l : List α) :
    (l.mergeSort (nomLe nom)).Pairwise (fun x y => nom x ≤ nom y) := by
  have h := List.sorted_mergeSort (fun a b c => nomLe_trans nom a b c)
    (fun a b => nomLe_total nom a b) l
  exact h.imp (by simp only [nomLe, decide_eq_true_eq]; exact fun h => h)

/-- Stability of the embedded `order_by`: rows of any single name keep their
original relative order. -/
theorem mergeSort_nom_stable {α : Type} (nom : α → String) (l : List α) (n : String) :
    (l.mergeSort (nomLe nom)).filter (fun x => nom x == n) =
      l.filter (fun x => nom x == n) := by
  have hpair : (l.filter (fun x => nom x == n)).Pairwise (fun x y => nomLe nom x y) := by
    apply List.pairwise_of_forall_mem_list
    intro a ha b hb
    have hna : nom a = n := by simpa using (List.mem_filter.mp ha).2
    have hnb : nom b = n := by simpa using (List.mem_filter.mp hb).2
    simp [nomLe, hna, hnb]
  have h1 : List.Sublist (l.filter (fun x => nom x == n)) (l.mergeSort (nomLe nom)) :=
    List.sublist_mergeSort (fun a b c => nomLe_trans nom a b c)
      (fun a b => nomLe_total nom a b) hpair (List.filter_sublist l)
  have h2 : List.Perm ((l.mergeSort (nomLe nom)).filter (fun x => nom x == n))
      (l.filter (fun x => nom x == n)) :=
    (List.mergeSort_perm l (nomLe nom)).filter _
  have h3 : List.Sublist (l.filter (fun x => nom x == n))
      ((l.mergeSort (nomLe nom)).filter (fun x => nom x == n)) := by
    have := h1.filter (fun x => nom x == n)
    simpa [List.filter_filter] using this
  exact (h3.eq_of_length h2.length_eq.symm).symm

/-- C1: with an `arrondissement` filter, `facilities` returns exactly the
rows of each of the three collections whose owning borough's name equals the
filter (case-sensitive, via the borough relation); an unknown borough name
yields three empty sequences, with no error raised. -/
theorem C1_borough_filter_exact (db : Database) (b : String) :
    ((facilities db (some b)).glissades =
        db.glissades.filter (fun g => arrondissementHasNom db g.arrondissement_id b)) ∧
    ((facilities db (some b)).installations_aquatiques =
        db.installations_aquatiques.filter
          (fun q => arrondissementHasNom db q.arrondissement_id b)) ∧
    ((facilities db (some b)).patinoires =
        db.patinoires.filter (fun r => arrondissementHasNom db r.arrondissement_id b)) ∧
    (∀ i : Nat, arrondissementHasNom db i b = true ↔
        ∃ a ∈ db.arrondissements, a.id = i ∧ a.nom = b) ∧
    ((∀ a ∈ db.arrondissements, a.nom ≠ b) →
        facilities db (some b) =
          { glissades := [], installations_aquatiques := [], patinoires := [] }) := by
  refine ⟨rfl, rfl, rfl, ?_, ?_⟩
  · intro i
    simp [arrondissementHasNom, List.any_eq_true]
  · intro h
    have hf : ∀ i : Nat, arrondissementHasNom db i b = false := by
      intro i
      rw [← Bool.not_eq_true]
      simp only [arrondissementHasNom, List.any_eq_true, Bool.and_eq_true, beq_iff_eq,
        not_exists]
      rintro a ⟨ha, -, hnom⟩
      exact h a ha hnom
    have e1 : db.glissades.filter
        (fun g => arrondissementHasNom db g.arrondissement_id b) = [] :=
      List.filter_eq_nil_iff.mpr (fun g _ => by simp [hf])
    have e2 : db.installations_aquatiques.filter
        (fun q => arrondissementHasNom db q.arrondissement_id b) = [] :=
      List.filter_eq_nil_iff.mpr (fun q _ => by simp [hf])
    have e3 : db.patinoires.filter
        (fun r => arrondissementHasNom db r.arrondissement_id b) = [] :=
      List.filter_eq_nil_iff.mpr (fun r _ => by simp [hf])
    show Envelope.mk _ _ _ = Envelope.mk [] [] []
    rw [e1, e2, e3]

theorem C1_borough_filter_exact_witness :
    (∀ a ∈ dbFixture.arrondissements, a.nom ≠ "Zzz") ∧
      facilities dbFixture (some "Zzz") =
        { glissades := [], installations_aquatiques := [], patinoires := [] } :=
  ⟨by decide, (C1_borough_filter_exact dbFixture "Zzz").2.2.2.2 (by decide)⟩

/-- C10: with the `arrondissement` filter present, the unfiltered
collections prefetched by `_get_all_facilities` are entirely overwritten
before serialization, so `facilities` with a filter equals the variant that
never performs the initial unfiltered fetch. -/
theorem C10_filtered_overwrites_prefetch (db : Database) (f : String) :
    facilities db (some f) = facilitiesFilteredOnly db f := rfl

/-- C7: with no `nom` query parameter, `facility_name_search` references the
filtered collections without their having been assigned in that branch, so
the operation fails at runtime (Python `UnboundLocalError`) instead of
returning all rows or a well-formed response. -/
theorem C7_name_search_unbound_local (db : Database) :
    facility_name_search db none = Except.error unboundLocalError ∧
      ∀ e : Envelope, facility_name_search db none ≠ Except.ok e := by
  exact ⟨rfl, fun e h => by simp [facility_name_search] at h⟩

/-- C3: a document failing subscription-schema validation is answered with
the fixed 400 invalid-data error, storage is left unchanged and no
insert+commit is attempted. -/
theorem C3_invalid_subscription_no_write (storage : List Subscriber)
    (commitFails : Bool) (doc : Json) (h : validate_subscription doc = false) :
    subscribe storage commitFails doc =
      { body := ResponseBody.errorDoc invalidDataMsg
        status := 400
        storage := storage
        insertAttempts := 0 } := by
  simp [subscribe, h]

theorem C3_invalid_subscription_no_write_witness :
    validate_subscription invalidSubscribeDoc = false ∧
      subscribe [] false invalidSubscribeDoc =
        { body := ResponseBody.errorDoc invalidDataMsg
          status := 400
          storage := []
          insertAttempts := 0 } :=
  ⟨by decide, C3_invalid_subscription_no_write [] false invalidSubscribeDoc (by decide)⟩

/-- C4: a document passing validation whose insert+commit fails with a
storage-layer error is answered with the fixed 500 storage-error message
(not the validated input); storage keeps its prior state and the single
write is not retried. -/
theorem C4_storage_failure_atomic (storage : List Subscriber) (doc : Json)
    (h : validate_subscription doc = true) :
    subscribe storage true doc =
      { body := ResponseBody.errorDoc storageErrorMsg
        status := 500
        storage := storage
        insertAttempts := 1 } ∧
    ∀ s : Subscriber,
      (subscribe storage true doc).body ≠ ResponseBody.subscriberDoc s := by
  constructor
  · simp [subscribe, h]
  · intro s hbody
    rw [show subscribe storage true doc =
        { body := ResponseBody.errorDoc storageErrorMsg
          status := 500
          storage := storage
          insertAttempts := 1 } from by simp [subscribe, h]] at hbody
    simp at hbody

theorem docFieldsToXml_eq_renderList (d : Doc) :
    docFieldsToXml d =
      renderList (d.map (fun kv => Xml.elem kv.1 [] [Xml.text kv.2])) := by
  induction d with
  | nil => rfl
  | cons kv rest ih =>
    simp only [docFieldsToXml, List.map_cons, renderList, ih, fieldToXml, render,
      renderAttrs, String.append_empty, String.empty_append, String.append_assoc]

theorem dicttoxml_eq_renderList (docs : List Doc) :
    dicttoxml docs = renderList (docs.map docToXmlItem) := by
  induction docs with
  | nil => rfl
  | cons d rest ih =>
    simp only [dicttoxml, List.map_cons, renderList, ih, docToXmlItem, render,
      renderAttrs, docFieldsToXml_eq_renderList, String.append_empty,
      String.empty_append, String.append_assoc]
    rfl

theorem wellFormedList_fields (d : Doc)
    (h : ∀ kv ∈ d, validXmlName kv.1 = true) :
    wellFormedList (d.map (fun kv => Xml.elem kv.1 [] [Xml.text kv.2])) = true := by
  induction d with
  | nil => rfl
  | cons kv rest ih =>
    have hk := h kv (List.mem_cons_self kv rest)
    have hrest := ih (fun kv hkv => h kv (List.mem_cons_of_mem _ hkv))
    simp [wellFormedList, wellFormed, hk, hrest]

theorem wellFormedList_items (docs : List Doc)
    (h : ∀ d ∈ docs, ∀ kv ∈ d, validXmlName kv.1 = true) :
    wellFormedList (docs.map docToXmlItem) = true := by
  induction docs with
  | nil => rfl
  | cons d rest ih =>
    have hd := wellFormedList_fields d (h d (List.mem_cons_self d rest))
    have hrest := ih (fun d hd => h d (List.mem_cons_of_mem _ hd))
    have hitem : validXmlName "item" = true := by decide
    simp [wellFormedList, wellFormed, docToXmlItem, hd, hrest, hitem]

theorem noAttrsList_fields (d : Doc) :
    noAttrsList (d.map (fun kv => Xml.elem kv.1 [] [Xml.text kv.2])) = true := by
  induction d with
  | nil => rfl
  | cons kv rest ih =>
    simp [noAttrsList, noAttrs, ih]

theorem noAttrsList_items (docs : List Doc) :
    noAttrsList (docs.map docToXmlItem) = true := by
  induction docs with
  | nil => rfl
  | cons d rest ih =>
    simp [noAttrsList, noAttrs, docToXmlItem, ih, noAttrsList_fields]

/-- C6: the XML serialization equals the XML declaration followed by the
standard rendering of a structured document whose root is `installations`
with the three containers `glissades`, `installations_aquatiques`,
`patinoires` in that fixed order, one `<item>` child per input document
whose sub-elements are the document's fields; no element carries any
attribute and every tag is a usable XML name, so the output is a
well-formed, parseable document. -/
theorem C6_xml_document_structure (slides aqua rinks : List Doc)
    (h : ∀ d, d ∈ slides ++ aqua ++ rinks → ∀ kv ∈ d, validXmlName kv.1 = true) :
    joined_xml_data slides aqua rinks = xmlDecl ++ render (toXml slides aqua rinks) ∧
    wellFormed (toXml slides aqua rinks) = true ∧
    noAttrs (toXml slides aqua rinks) = true ∧
    toXml slides aqua rinks =
      Xml.elem "installations" []
        [Xml.elem "glissades" [] (slides.map docToXmlItem),
          Xml.elem "installations_aquatiques" [] (aqua.map docToXmlItem),
          Xml.elem "patinoires" [] (rinks.map docToXmlItem)] ∧
    (∀ d : Doc, docToXmlItem d =
      Xml.elem "item" [] (d.map (fun kv => Xml.elem kv.1 [] [Xml.text kv.2]))) := by
  have hs : ∀ d ∈ slides, ∀ kv ∈ d, validXmlName kv.1 = true :=
    fun d hd => h d (by simp [hd])
  have ha : ∀ d ∈ aqua, ∀ kv ∈ d, validXmlName kv.1 = true :=
    fun d hd => h d (by simp [hd])
  have hr : ∀ d ∈ rinks, ∀ kv ∈ d, validXmlName kv.1 = true :=
    fun d hd => h d (by simp [hd])
  refine ⟨?_, ?_, ?_, rfl, fun d => rfl⟩
  · simp only [joined_xml_data, String.join, List.foldl, toXml, render, renderList,
      renderAttrs, dicttoxml_eq_renderList, String.append_empty, String.empty_append,
      String.append_assoc]
    rfl
  · have v1 : validXmlName "installations" = true := by decide
    have v2 : validXmlName "glissades" = true := by decide
    have v3 : validXmlName "installations_aquatiques" = true := by decide
    have v4 : validXmlName "patinoires" = true := by decide
    simp [toXml, wellFormed, wellFormedList, v1, v2, v3, v4,
      wellFormedList_items slides hs, wellFormedList_items aqua ha,
      wellFormedList_items rinks hr]
  · simp [toXml, noAttrs, noAttrsList, noAttrsList_items]

theorem C6_xml_document_structure_witness :
    (∀ d, d ∈ [slideDocFixture] ++ [aquaticDocFixture] ++ [rinkDocFixture] →
        ∀ kv ∈ d, validXmlName kv.1 = true) ∧
      joined_xml_data [slideDocFixture] [aquaticDocFixture] [rinkDocFixture] =
        xmlDecl ++
          render (toXml [slideDocFixture] [aquaticDocFixture] [rinkDocFixture]) :=
  ⟨by decide,
    (C6_xml_document_structure [slideDocFixture] [aquaticDocFixture] [rinkDocFixture]
        (by decide)).1⟩

/-- C2: in `listFacilitiesUpdatedInYear`, a slide or aquatic facility is
kept iff its owning borough's last-update timestamp starts with the year
(prefix match through the borough join), while an ice rink is kept iff its
own date/time field has the year anywhere as a substring; the two matching
modes differ. -/
theorem C2_prefix_vs_substring (db : Database) (year : String) :
    (∀ g : Glissade, g ∈ (listFacilitiesUpdatedInYear db year).2.2 ↔
        g ∈ db.glissades ∧ ∃ a ∈ db.arrondissements,
          a.id = g.arrondissement_id ∧ year.data <+: a.date_maj.data) ∧
    (∀ q : InstallationAquatique, q ∈ (listFacilitiesUpdatedInYear db year).1 ↔
        q ∈ db.installations_aquatiques ∧ ∃ a ∈ db.arrondissements,
          a.id = q.arrondissement_id ∧ year.data <+: a.date_maj.data) ∧
    (∀ r : Patinoire, r ∈ (listFacilitiesUpdatedInYear db year).2.1 ↔
        r ∈ db.patinoires ∧ year.data <:+: r.date_heure.data) := by
  refine ⟨fun g => ?_, fun q => ?_, fun r => ?_⟩ <;>
    simp [listFacilitiesUpdatedInYear, List.mem_filter, arrondissementDateMajLike,
      dateHeureContains, List.any_eq_true, and_assoc]

/-- C5: each collection returned by `listFacilitiesUpdatedInYear` is sorted
ascending by facility name, and the sort is stable: rows of equal name keep
their original storage order (their filtered subsequence is unchanged). -/
theorem C5_sorted_by_name_stable (db : Database) (year : String) :
    ((listFacilitiesUpdatedInYear db year).1.Pairwise
        (fun x y => x.nom ≤ y.nom)) ∧
    ((listFacilitiesUpdatedInYear db year).2.1.Pairwise
        (fun x y => x.nom ≤ y.nom)) ∧
    ((listFacilitiesUpdatedInYear db year).2.2.Pairwise
        (fun x y => x.nom ≤ y.nom)) ∧
    (∀ n : String,
      (listFacilitiesUpdatedInYear db year).1.filter (fun x => x.nom == n) =
        (db.installations_aquatiques.filter
            (fun q => arrondissementDateMajLike db q.arrondissement_id year)).filter
          (fun x => x.nom == n)) ∧
    (∀ n : String,
      (listFacilitiesUpdatedInYear db year).2.1.filter (fun x => x.nom == n) =
        (db.patinoires.filter (fun r => dateHeureContains r year)).filter
          (fun x => x.nom == n)) ∧
    (∀ n : String,
      (listFacilitiesUpdatedInYear db year).2.2.filter (fun x => x.nom == n) =
        (db.glissades.filter
            (fun g => arrondissementDateMajLike db g.arrondissement_id year)).filter
          (fun x => x.nom == n)) :=
  ⟨mergeSort_nom_sorted InstallationAquatique.nom _,
    mergeSort_nom_sorted Patinoire.nom _,
    mergeSort_nom_sorted Glissade.nom _,
    fun n => mergeSort_nom_stable InstallationAquatique.nom _ n,
    fun n => mergeSort_nom_stable Patinoire.nom _ n,
    fun n => mergeSort_nom_stable Glissade.nom _ n⟩

/-- C9: `facility_names` returns one flat list holding the name of every
facility of all three kinds, one entry per facility and nothing else (a
permutation of the concatenated name lists), sorted ascending. -/
theorem C9_flat_sorted_names (db : Database) :
    (facility_names db).Pairwise (fun x y : String => x ≤ y) ∧
      List.Perm (facility_names db)
        (db.installations_aquatiques.map InstallationAquatique.nom ++
          db.patinoires.map Patinoire.nom ++ db.glissades.map Glissade.nom) := by
  constructor
  · exact mergeSort_nom_sorted (fun s : String => s)
      (db.installations_aquatiques.map InstallationAquatique.nom ++
        db.patinoires.map Patinoire.nom ++ db.glissades.map Glissade.nom)
  · exact List.mergeSort_perm _ _

/-- C8 counterexample: the source operation is not invocable for another
year.  On a database whose only borough was updated in 2020, the operation
returns three empty collections, while the year-generic contract invoked at
"2020" returns the slide; the 2021 literal is fixed inside the operation,
which coincides with the contract only at "2021". -/
theorem C8_counterexample_year_not_parameter :
    get_facilities_updated_2021 dbFixture2020 ≠
      listFacilitiesUpdatedInYear dbFixture2020 "2020" := by
  have h1 : get_facilities_updated_2021 dbFixture2020 = ([], [], []) := by
    have e1 : dbFixture2020.glissades.filter
        (fun g => arrondissementDateMajLike dbFixture2020 g.arrondissement_id "2021") =
          [] := by decide
    have e2 : dbFixture2020.installations_aquatiques.filter
        (fun q => arrondissementDateMajLike dbFixture2020 q.arrondissement_id "2021") =
          [] := by decide
    have e3 : dbFixture2020.patinoires.filter
        (fun r => dateHeureContains r "2021") = [] := by decide
    simp [get_facilities_updated_2021, e1, e2, e3]
  have h2 : listFacilitiesUpdatedInYear dbFixture2020 "2020" =
      ([], [], [slideFixture]) := by
    have e1 : dbFixture2020.glissades.filter
        (fun g => arrondissementDateMajLike dbFixture2020 g.arrondissement_id "2020") =
          [slideFixture] := by decide
    have e2 : dbFixture2020.installations_aquatiques.filter
        (fun q => arrondissementDateMajLike dbFixture2020 q.arrondissement_id "2020") =
          [] := by decide
    have e3 : dbFixture2020.patinoires.filter
        (fun r => dateHeureContains r "2020") = [] := by decide
    simp [listFacilitiesUpdatedInYear, e1, e2, e3]
  rw [h1, h2]
  simp

/-- C8 amended: the year literal "2021" is assigned inside
`_get_facilities_updated_2021` itself, which takes no year parameter; the
operation coincides with the year-generic contract
`listFacilitiesUpdatedInYear` exactly at year "2021", on every database. -/
theorem C8_year_literal_inside_operation (db : Database) :
    get_facilities_updated_2021 db = listFacilitiesUpdatedInYear db "2021" := rfl

theorem C4_storage_failure_atomic_witness :
    validate_subscription validSubscribeDoc = true ∧
      subscribe [] true validSubscribeDoc =
        { body := ResponseBody.errorDoc storageErrorMsg
          status := 500
          storage := []
          insertAttempts := 1 } :=
  ⟨by decide, (C4_storage_failure_atomic [] validSubscribeDoc (by decide)).1⟩

end ProjetSession
